import Mathlib

/-!
Verification of the FabricObserver elevated capability-proxy binaries
(elevated_docker_stats.c, elevated_netstat.c, elevated_proc_fd.c).

Each C program is embedded as a pure Lean function that returns the trace of
observable actions it performs (prints, capability syscalls, pipe/fork/dup2/
close, image replacement) together with how the process ends.  Kernel
responses that the programs branch on (the success of each ambient
prctl raise, the success of execv, which side of the fork a branch is on,
the descriptor numbers returned by pipe) are parameters of the embedding.
C strings are modelled as Lean strings, one Char per byte.
-/

/-- Linux capability number CAP_DAC_OVERRIDE, from linux/capability.h. -/
def CAP_DAC_OVERRIDE : Nat := 1

/-- Linux capability number CAP_DAC_READ_SEARCH, from linux/capability.h. -/
def CAP_DAC_READ_SEARCH : Nat := 2

/-- Linux capability number CAP_SYS_PTRACE, from linux/capability.h. -/
def CAP_SYS_PTRACE : Nat := 19

/-- Observable actions of the proxy processes, in program order.  The
argv vectors carried by execv are NULL-terminated C arrays, modelled as
lists of `Option String` where `none` is the terminating NULL pointer. -/
inductive Event where
  | print (msg : String)
  | argRead (idx : Nat)
  | capGetProc
  | capSetFlagInheritable (caps : List Nat)
  | capSetProc
  | capFree
  | prctlRaise (cap : Nat)
  | pipeCreate (readEnd writeEnd : Nat)
  | forkCall
  | dup2 (oldfd newfd : Nat)
  | closeFd (fd : Nat)
  | execv (path : String) (argv : List (Option String))
  | waitCall (pid : Int)
deriving DecidableEq, Repr

/-- How a run of a proxy process ends. -/
structure ProcResult where
  events : List Event
  /-- When execv succeeds the process image is replaced by (path, argv)
  and the proxy code never regains control. -/
  replaced : Option (String × List (Option String))
  /-- An executed `return` statement of main, when one was reached. -/
  explicitReturn : Option Int
  /-- True when the run hits undefined behavior (a NULL dereference). -/
  ub : Bool
deriving DecidableEq, Repr

/-- Exit status of a run of main, following C99 5.1.2.2.3: reaching the
closing brace of main returns 0.  `none` means the proxy code never
terminated normally (its image was replaced, or it crashed in UB). -/
def exitStatus (r : ProcResult) : Option Int :=
  if r.ub || r.replaced.isSome then none else some (r.explicitReturn.getD 0)

/-- Embedding of C strcpy: afterwards the destination holds exactly src. -/
def strcpy (_dest src : String) : String := src

/-- Embedding of C strcat: the destination holds its old contents followed
by src. -/
def strcat (dest src : String) : String := dest ++ src

/-- Embedding of C strcmp, up to the sign of the nonzero results. -/
def strcmp (a b : String) : Int := if a = b then 0 else if a < b then -1 else 1

/-- Embedding of set_ambient_caps (identical in all three C files): one
prctl(PR_CAP_AMBIENT, PR_CAP_AMBIENT_RAISE, cap) per capability; on the
first raise the kernel rejects it prints "Fail!\n" and returns. -/
def set_ambient_caps (ok : Nat → Bool) : List Nat → List Event
  | [] => []
  | c :: cs =>
    if ok c then Event.prctlRaise c :: set_ambient_caps ok cs
    else [Event.prctlRaise c, Event.print "Fail!\n"]

/-- The capability-elevation sequence shared by all three mains:
cap_get_proc, cap_set_flag(INHERITABLE, caps, CAP_SET), cap_set_proc,
cap_free, then set_ambient_caps. -/
def capElevationEvents (caps : List Nat) (ok : Nat → Bool) : List Event :=
  [Event.capGetProc, Event.capSetFlagInheritable caps, Event.capSetProc,
   Event.capFree] ++ set_ambient_caps ok caps

/-- CapabilitySet of elevated_docker_stats.c. -/
def dockerCaps : List Nat := [CAP_DAC_READ_SEARCH, CAP_DAC_OVERRIDE]

/-- The argv array `param` of elevated_docker_stats.c. -/
def dockerParam : List (Option String) :=
  [some "docker", some "stats", some "--no-stream", some "--format",
   some "table \x7b\x7b.Container\x7d\x7d\t\x7b\x7b.Name\x7d\x7d\t\x7b\x7b.CPUPerc\x7d\x7d\t\x7b\x7b.MemUsage\x7d\x7d",
   none]

/-- Embedding of main of elevated_docker_stats.c. -/
def dockerMain (ok : Nat → Bool) (execOk : Bool) : ProcResult :=
  { events := capElevationEvents dockerCaps ok ++
      [Event.execv "/usr/bin/docker" dockerParam],
    replaced := if execOk then some ("/usr/bin/docker", dockerParam) else none,
    explicitReturn := none,
    ub := false }

/-- CapabilitySet of elevated_netstat.c and elevated_proc_fd.c. -/
def netstatCaps : List Nat := [CAP_DAC_READ_SEARCH, CAP_SYS_PTRACE]

/-- The argv array `param` of elevated_netstat.c. -/
def netstatParam : List (Option String) :=
  [some "netstat", some "-tnap", none]

/-- Embedding of main of elevated_netstat.c. -/
def netstatMain (ok : Nat → Bool) (execOk : Bool) : ProcResult :=
  { events := capElevationEvents netstatCaps ok ++
      [Event.execv "/bin/netstat" netstatParam],
    replaced := if execOk then some ("/bin/netstat", netstatParam) else none,
    explicitReturn := none,
    ub := false }

/-- CapabilitySet of elevated_proc_fd.c (same two capabilities as netstat). -/
def procFdCaps : List Nat := [CAP_DAC_READ_SEARCH, CAP_SYS_PTRACE]

/-- The usage message printed by elevated_proc_fd.c when its argument
guard fires. -/
def usageMsg : String :=
  "You have to supply one argument; a process id for use in ls or -1 which would mean run lsof."

/-- The contents of the 32-byte buffer procFDParam after
strcpy(procFDParam, "/proc/"); strcat(procFDParam, argv[1]);
strcat(procFDParam, "/fd"); in elevated_proc_fd.c. -/
def procFDParamBuilt (a1 : String) : String :=
  strcat (strcat (strcpy "" "/proc/") a1) "/fd"

/-- Declared capacity of the procFDParam buffer: char procFDParam[32]. -/
def PROC_FD_PARAM_CAPACITY : Nat := 32

/-- Number of bytes the three unchecked string calls store into
procFDParam, terminating NUL included. -/
def procFdBytesWritten (a1 : String) : Nat := (procFDParamBuilt a1).length + 1

/-- The command built by the fd-count proxy: the binary path variable
lsbin and the NULL-terminated argv array ls_args. -/
structure FdCmd where
  lsbin : String
  ls_args : List (Option String)
deriving DecidableEq, Repr

/-- Embedding of the command-building block of main of
elevated_proc_fd.c: lsbin starts as "/bin/ls"; when argv[1] differs from
"-1" the per-process /proc path is concatenated and ls_args is
\x7b "ls", procFDParam, NULL \x7d; otherwise lsbin is overwritten with
"/usr/bin/lsof" and ls_args is \x7b lsbin, NULL \x7d. -/
def buildFdCmd (a1 : String) : FdCmd :=
  let lsbin := strcpy "" "/bin/ls"
  if strcmp a1 "-1" ≠ 0 then
    { lsbin := lsbin,
      ls_args := [some "ls", some (procFDParamBuilt a1), none] }
  else
    let lsbin2 := strcpy lsbin "/usr/bin/lsof"
    { lsbin := lsbin2, ls_args := [some lsbin2, none] }

/-- The argv array wc_args of the consumer branch of elevated_proc_fd.c. -/
def wc_args : List (Option String) := [some "wc", some "-l", none]

/-- Embedding of the pipe/fork/exec tail of main of elevated_proc_fd.c.
pipe() returns descriptors (readEnd, writeEnd); fork() returns nonzero in
the parent, which takes the if branch (the producer), while the child
takes the else branch (the consumer running wc -l). -/
def pipeComposerEvents (readEnd writeEnd : Nat) (lsbin : String)
    (ls_args : List (Option String)) (parentBranch : Bool) : List Event :=
  [Event.pipeCreate readEnd writeEnd, Event.forkCall] ++
    (if parentBranch then
      [Event.dup2 writeEnd 1, Event.closeFd writeEnd, Event.closeFd readEnd,
       Event.execv lsbin ls_args]
    else
      [Event.dup2 readEnd 0, Event.closeFd readEnd, Event.closeFd writeEnd,
       Event.execv "/usr/bin/wc" wc_args])

/-- Embedding of main of elevated_proc_fd.c.  argv is the full C argument
vector (argv[0] is the program name, argc = argv.length); reading argv at
argc or beyond yields the NULL terminator, so strcmp on it is a NULL
dereference (undefined behavior), recorded by the ub flag. -/
def procFdMain (argv : List String) (ok : Nat → Bool) (readEnd writeEnd : Nat)
    (parentBranch : Bool) (execOk : Bool) : ProcResult :=
  if argv.length < 1 then
    { events := [Event.print usageMsg], replaced := none,
      explicitReturn := some (-1), ub := false }
  else
    match argv.get? 1 with
    | none =>
      { events := [Event.argRead 1], replaced := none,
        explicitReturn := none, ub := true }
    | some a1 =>
      let cmd := buildFdCmd a1
      let reads := Event.argRead 1 ::
        (if strcmp a1 "-1" ≠ 0 then [Event.argRead 1] else [])
      { events := reads ++ capElevationEvents procFdCaps ok ++
          pipeComposerEvents readEnd writeEnd cmd.lsbin cmd.ls_args parentBranch,
        replaced := if execOk then
            some (if parentBranch then (cmd.lsbin, cmd.ls_args)
                  else ("/usr/bin/wc", wc_args))
          else none,
        explicitReturn := none,
        ub := false }

/-- True of the events that read a runtime argument. -/
def isArgRead : Event → Bool
  | .argRead _ => true
  | _ => false

/-- True of the capability-elevation events (libcap calls and the
ambient prctl raises). -/
def isCapElevation : Event → Bool
  | .capGetProc => true
  | .capSetFlagInheritable _ => true
  | .capSetProc => true
  | .capFree => true
  | .prctlRaise _ => true
  | _ => false

/-- True of the launch events (pipe wiring, fork, image replacement). -/
def isLaunch : Event → Bool
  | .pipeCreate _ _ => true
  | .forkCall => true
  | .dup2 _ _ => true
  | .closeFd _ => true
  | .execv _ _ => true
  | _ => false

/-- Every p-event of the list occurs strictly before every q-event: the
list splits into a prefix free of q-events and a suffix free of p-events. -/
def Precedes (p q : Event → Bool) (l : List Event) : Prop :=
  ∃ l1 l2, l = l1 ++ l2 ∧ (∀ e ∈ l1, q e = false) ∧ (∀ e ∈ l2, p e = false)

/-- A C argv array modelled as `List (Option String)` is NULL-terminated:
nonempty, its last cell is the NULL pointer, and no earlier cell is NULL. -/
def nullTerminated (v : List (Option String)) : Prop :=
  v ≠ [] ∧ v.getLast? = some none ∧ ∀ s ∈ v.dropLast, s ≠ none

/-- Helper for basename: keeps the characters seen since the last slash. -/
def basenameAux : List Char → List Char → List Char
  | [], acc => acc.reverse
  | c :: cs, acc => if c = '/' then basenameAux cs [] else basenameAux cs (c :: acc)

/-- Final path component of a slash-separated path. -/
def basename (s : String) : String := ⟨basenameAux s.data []⟩

/-- Formalization of the phrase "syntactically valid small non-negative
decimal integer" of the specification: a nonempty all-digit string. -/
def isDecimalNumeral (s : String) : Bool := !s.data.isEmpty && s.data.all Char.isDigit

theorem strcmp_eq_zero_iff (a b : String) : strcmp a b = 0 ↔ a = b := by
  unfold strcmp
  split
  · simp [*]
  · split <;> simp [*]

theorem procFDParamBuilt_eq (a1 : String) :
    procFDParamBuilt a1 = "/proc/" ++ a1 ++ "/fd" := rfl

theorem buildFdCmd_of_ne (a1 : String) (h : a1 ≠ "-1") :
    buildFdCmd a1 =
      { lsbin := "/bin/ls",
        ls_args := [some "ls", some ("/proc/" ++ a1 ++ "/fd"), none] } := by
  have hc : ¬ strcmp a1 "-1" = 0 := fun hz => h ((strcmp_eq_zero_iff a1 "-1").mp hz)
  simp [buildFdCmd, hc, procFDParamBuilt_eq, strcpy]

theorem buildFdCmd_sentinel :
    buildFdCmd "-1" =
      { lsbin := "/usr/bin/lsof", ls_args := [some "/usr/bin/lsof", none] } := by
  decide

theorem set_ambient_caps_shape (ok : Nat → Bool) (caps : List Nat) :
    ∀ e ∈ set_ambient_caps ok caps,
      (∃ c, e = Event.prctlRaise c) ∨ e = Event.print "Fail!\n" := by
  induction caps with
  | nil => simp [set_ambient_caps]
  | cons c cs ih =>
    intro e he
    unfold set_ambient_caps at he
    by_cases h : ok c = true
    · simp [h] at he
      rcases he with he | he
      · exact Or.inl ⟨c, he⟩
      · exact ih e he
    · simp [h] at he
      rcases he with he | he
      · exact Or.inl ⟨c, he⟩
      · exact Or.inr he

theorem set_ambient_caps_fail_mem (ok : Nat → Bool) (caps : List Nat)
    (h : ∃ c ∈ caps, ok c = false) :
    Event.print "Fail!\n" ∈ set_ambient_caps ok caps := by
  induction caps with
  | nil => simp at h
  | cons c cs ih =>
    unfold set_ambient_caps
    by_cases hc : ok c = true
    · simp [hc]
      apply ih
      rcases h with ⟨d, hd, hdf⟩
      rcases List.mem_cons.mp hd with rfl | hd2
      · rw [hc] at hdf
        exact absurd hdf (by simp)
      · exact ⟨d, hd2, hdf⟩
    · simp [hc]

theorem capElevationEvents_shape (caps : List Nat) (ok : Nat → Bool) :
    ∀ e ∈ capElevationEvents caps ok,
      isCapElevation e = true ∨ e = Event.print "Fail!\n" := by
  intro e he
  unfold capElevationEvents at he
  rcases List.mem_append.mp he with h4 | hs
  · fin_cases h4 <;> exact Or.inl rfl
  · rcases set_ambient_caps_shape ok caps e hs with ⟨c, rfl⟩ | rfl
    · exact Or.inl rfl
    · exact Or.inr rfl

theorem capElevationEvents_not_argRead (caps : List Nat) (ok : Nat → Bool) :
    ∀ e ∈ capElevationEvents caps ok, isArgRead e = false := by
  intro e he
  rcases capElevationEvents_shape caps ok e he with hsh | rfl
  · cases e <;> first | rfl | exact (Bool.false_ne_true hsh).elim
  · rfl

theorem capElevationEvents_not_launch (caps : List Nat) (ok : Nat → Bool) :
    ∀ e ∈ capElevationEvents caps ok, isLaunch e = false := by
  intro e he
  rcases capElevationEvents_shape caps ok e he with hsh | rfl
  · cases e <;> first | rfl | exact (Bool.false_ne_true hsh).elim
  · rfl

theorem pipeComposerEvents_launch (readEnd writeEnd : Nat) (lsbin : String)
    (ls_args : List (Option String)) (b : Bool) :
    ∀ e ∈ pipeComposerEvents readEnd writeEnd lsbin ls_args b,
      isLaunch e = true := by
  intro e he
  unfold pipeComposerEvents at he
  cases b <;> simp at he <;>
    rcases he with rfl | rfl | rfl | rfl | rfl | rfl <;> rfl

theorem pipeComposerEvents_not_argRead (readEnd writeEnd : Nat) (lsbin : String)
    (ls_args : List (Option String)) (b : Bool) :
    ∀ e ∈ pipeComposerEvents readEnd writeEnd lsbin ls_args b,
      isArgRead e = false := by
  intro e he
  have hl := pipeComposerEvents_launch readEnd writeEnd lsbin ls_args b e he
  cases e <;> first | rfl | exact (Bool.false_ne_true hl).elim

theorem pipeComposerEvents_not_capElevation (readEnd writeEnd : Nat)
    (lsbin : String) (ls_args : List (Option String)) (b : Bool) :
    ∀ e ∈ pipeComposerEvents readEnd writeEnd lsbin ls_args b,
      isCapElevation e = false := by
  intro e he
  have hl := pipeComposerEvents_launch readEnd writeEnd lsbin ls_args b e he
  cases e <;> first | rfl | exact (Bool.false_ne_true hl).elim

theorem procFdMain_eq (argv : List String) (a1 : String) (ok : Nat → Bool)
    (readEnd writeEnd : Nat) (parentBranch execOk : Bool)
    (h : argv.get? 1 = some a1) :
    procFdMain argv ok readEnd writeEnd parentBranch execOk =
      { events := (Event.argRead 1 ::
            (if strcmp a1 "-1" ≠ 0 then [Event.argRead 1] else [])) ++
          capElevationEvents procFdCaps ok ++
          pipeComposerEvents readEnd writeEnd (buildFdCmd a1).lsbin
            (buildFdCmd a1).ls_args parentBranch,
        replaced := if execOk then
            some (if parentBranch then ((buildFdCmd a1).lsbin, (buildFdCmd a1).ls_args)
                  else ("/usr/bin/wc", wc_args))
          else none,
        explicitReturn := none,
        ub := false } := by
  have hlen : 1 < argv.length := by
    rcases List.get?_eq_some.mp h with ⟨hl, _⟩
    exact hl
  unfold procFdMain
  rw [if_neg (by omega), h]

/-- C10: the construction of the /proc path stays within the fixed 32-byte
procFDParam buffer if and only if the supplied argument is at most 22 bytes
long (6 bytes for "/proc/", up to 22 for the argument, 3 for "/fd", 1 for
the NUL terminator); every longer argument makes the unchecked
concatenation write past the end of the buffer. -/
theorem C10_procFDParam_fits_iff_arg_at_most_22 (a1 : String) :
    procFdBytesWritten a1 ≤ PROC_FD_PARAM_CAPACITY ↔ a1.length ≤ 22 := by
  have h : procFdBytesWritten a1 = 10 + a1.length := by
    unfold procFdBytesWritten
    rw [procFDParamBuilt_eq]
    rw [String.length_append, String.length_append]
    have h6 : ("/proc/" : String).length = 6 := by decide
    have h3 : ("/fd" : String).length = 3 := by decide
    omega
  rw [h]
  unfold PROC_FD_PARAM_CAPACITY
  omega

/-- C3: for every first argument P different from "-1", the target path in
the second slot of the listing command argument vector is exactly the
concatenation "/proc/" ++ P ++ "/fd", and the whole vector is
\x7b "ls", that path, NULL \x7d. -/
theorem C3_proc_path_is_exact_concatenation (a1 : String) (h : a1 ≠ "-1") :
    (buildFdCmd a1).ls_args.get? 1 = some (some ("/proc/" ++ a1 ++ "/fd")) ∧
    (buildFdCmd a1).ls_args = [some "ls", some ("/proc/" ++ a1 ++ "/fd"), none] := by
  rw [buildFdCmd_of_ne a1 h]
  exact ⟨rfl, rfl⟩

/-- Witness for C3 at the concrete argument "42". -/
theorem C3_witness :
    ("42" : String) ≠ "-1" ∧
    ((buildFdCmd "42").ls_args.get? 1 = some (some ("/proc/" ++ "42" ++ "/fd")) ∧
     (buildFdCmd "42").ls_args = [some "ls", some ("/proc/" ++ "42" ++ "/fd"), none]) :=
  ⟨by decide, C3_proc_path_is_exact_concatenation "42" (by decide)⟩

/-- C4: in the dual-command variant, after the single fork the parent is
the producer: it replaces stdout (fd 1) with the pipe write end, closes
both pipe descriptors, and only then execs the listing command; the child
is the consumer: it replaces stdin (fd 0) with the pipe read end, closes
both pipe descriptors, and only then execs wc -l; neither branch ever
waits on the other. -/
theorem C4_pipe_wiring (readEnd writeEnd : Nat) (lsbin : String)
    (ls_args : List (Option String)) :
    pipeComposerEvents readEnd writeEnd lsbin ls_args true =
      [Event.pipeCreate readEnd writeEnd, Event.forkCall,
       Event.dup2 writeEnd 1, Event.closeFd writeEnd, Event.closeFd readEnd,
       Event.execv lsbin ls_args] ∧
    pipeComposerEvents readEnd writeEnd lsbin ls_args false =
      [Event.pipeCreate readEnd writeEnd, Event.forkCall,
       Event.dup2 readEnd 0, Event.closeFd readEnd, Event.closeFd writeEnd,
       Event.execv "/usr/bin/wc" [some "wc", some "-l", none]] ∧
    ∀ pid b, Event.waitCall pid ∉ pipeComposerEvents readEnd writeEnd lsbin ls_args b := by
  refine ⟨rfl, rfl, ?_⟩
  intro pid b
  cases b <;> simp [pipeComposerEvents, wc_args]

/-- C1 is wrong about the code: the guard in elevated_proc_fd.c is
argc < 1, which is never true for a real invocation with no user-supplied
argument (there argc = 1, argv = [program name]).  The run does not print
the usage message and does not return MissingArgument; instead it reads
argv[1], which is the NULL terminator of the argument list, and crashes in
undefined behavior inside strcmp.  This theorem evaluates the embedded
main at that failing input. -/
theorem C1_missing_argument_guard_never_fires :
    (procFdMain ["elevated_proc_fd"] (fun _ => true) 3 4 true true).ub = true ∧
    (procFdMain ["elevated_proc_fd"] (fun _ => true) 3 4 true true).events = [Event.argRead 1] ∧
    Event.print usageMsg ∉ (procFdMain ["elevated_proc_fd"] (fun _ => true) 3 4 true true).events ∧
    ∀ e ∈ (procFdMain ["elevated_proc_fd"] (fun _ => true) 3 4 true true).events,
      isCapElevation e = false ∧ isLaunch e = false := by
  refine ⟨rfl, rfl, by decide, ?_⟩
  intro e he
  have he2 : e ∈ [Event.argRead 1] := he
  rcases List.mem_singleton.mp he2 with rfl
  exact ⟨rfl, rfl⟩

/-- C2: when the first user argument is exactly "-1", the built invocation
is the system-wide open-file listing command: lsbin is overwritten with
"/usr/bin/lsof" and the argv vector is \x7b lsbin, NULL \x7d (lsof with no
arguments); the per-process /proc path branch is not taken, and every exec
performed by the run targets lsof (producer) or wc (consumer), never
/bin/ls. -/
theorem C2_sentinel_selects_lsof (argv : List String) (ok : Nat → Bool)
    (readEnd writeEnd : Nat) (parentBranch execOk : Bool)
    (h : argv.get? 1 = some "-1") :
    buildFdCmd "-1" =
      { lsbin := "/usr/bin/lsof", ls_args := [some "/usr/bin/lsof", none] } ∧
    Event.execv "/usr/bin/lsof" [some "/usr/bin/lsof", none] ∈
      (procFdMain argv ok readEnd writeEnd true execOk).events ∧
    ∀ p args2, Event.execv p args2 ∈
        (procFdMain argv ok readEnd writeEnd parentBranch execOk).events →
      p = "/usr/bin/lsof" ∨ p = "/usr/bin/wc" := by
  have hc0 : ¬ (strcmp "-1" "-1" ≠ 0) := by decide
  refine ⟨buildFdCmd_sentinel, ?_, ?_⟩
  · rw [procFdMain_eq argv "-1" ok readEnd writeEnd true execOk h,
      buildFdCmd_sentinel]
    simp [pipeComposerEvents]
  · intro p args2 hmem
    rw [procFdMain_eq argv "-1" ok readEnd writeEnd parentBranch execOk h,
      buildFdCmd_sentinel] at hmem
    rw [if_neg hc0] at hmem
    rcases List.mem_append.mp hmem with h1 | h1
    · rcases List.mem_append.mp h1 with h2 | h2
      · simp at h2
      · rcases capElevationEvents_shape procFdCaps ok _ h2 with hsh | hsh
        · exact (Bool.false_ne_true hsh).elim
        · simp at hsh
    · have h1b : Event.execv p args2 ∈
          pipeComposerEvents readEnd writeEnd "/usr/bin/lsof"
            [some "/usr/bin/lsof", none] parentBranch := h1
      unfold pipeComposerEvents at h1b
      cases parentBranch <;> simp at h1b <;>
        rcases h1b with ⟨hp, _⟩
      · exact Or.inr hp
      · exact Or.inl hp

/-- Witness for C2 at the concrete invocation ["elevated_proc_fd", "-1"],
checking the child (consumer) branch for the exec-target property. -/
theorem C2_witness :
    ((["elevated_proc_fd", "-1"] : List String).get? 1 = some "-1") ∧
    (buildFdCmd "-1" =
      { lsbin := "/usr/bin/lsof", ls_args := [some "/usr/bin/lsof", none] } ∧
    Event.execv "/usr/bin/lsof" [some "/usr/bin/lsof", none] ∈
      (procFdMain ["elevated_proc_fd", "-1"] (fun _ => true) 3 4 true true).events ∧
    ∀ p args2, Event.execv p args2 ∈
        (procFdMain ["elevated_proc_fd", "-1"] (fun _ => true) 3 4 false true).events →
      p = "/usr/bin/lsof" ∨ p = "/usr/bin/wc") :=
  ⟨rfl, C2_sentinel_selects_lsof ["elevated_proc_fd", "-1"] (fun _ => true) 3 4 false true rfl⟩

/-- C5: whenever the kernel rejects one of the ambient raises, the proxy
prints the failure message "Fail!\n" but does not abort: set_ambient_caps
returns after the first failed raise and main still reaches the execv call
on the wrapped command (shown here on the netstat variant, whose source is
cited by the claim). -/
theorem C5_ambient_raise_failure_is_nonfatal (ok : Nat → Bool) (execOk : Bool)
    (h : ∃ c ∈ netstatCaps, ok c = false) :
    Event.print "Fail!\n" ∈ (netstatMain ok execOk).events ∧
    Event.execv "/bin/netstat" netstatParam ∈ (netstatMain ok execOk).events := by
  constructor
  · show Event.print "Fail!\n" ∈ capElevationEvents netstatCaps ok ++
      [Event.execv "/bin/netstat" netstatParam]
    apply List.mem_append_left
    unfold capElevationEvents
    apply List.mem_append_right
    exact set_ambient_caps_fail_mem ok netstatCaps h
  · show Event.execv "/bin/netstat" netstatParam ∈
      capElevationEvents netstatCaps ok ++ [Event.execv "/bin/netstat" netstatParam]
    apply List.mem_append_right
    exact List.mem_singleton.mpr rfl

/-- Witness for C5 with a kernel that rejects every ambient raise. -/
theorem C5_witness :
    (∃ c ∈ netstatCaps, (fun _ : Nat => false) c = false) ∧
    (Event.print "Fail!\n" ∈ (netstatMain (fun _ => false) true).events ∧
     Event.execv "/bin/netstat" netstatParam ∈ (netstatMain (fun _ => false) true).events) :=
  ⟨⟨CAP_DAC_READ_SEARCH, by decide, rfl⟩,
   C5_ambient_raise_failure_is_nonfatal (fun _ => false) true
     ⟨CAP_DAC_READ_SEARCH, by decide, rfl⟩⟩

/-- C6 is wrong about the code: in elevated_proc_fd.c the runtime argument
is read (strcmp(argv[1], "-1") and the path concatenation) before any
capability-elevation call.  At the concrete invocation
["elevated_proc_fd", "5"] the trace starts with argument reads, so the
capability elevator does not precede every argument read. -/
theorem C6_counterexample :
    ¬ Precedes isCapElevation isArgRead
      ((procFdMain ["elevated_proc_fd", "5"] (fun _ => true) 3 4 true true).events) := by
  rintro ⟨l1, l2, heq, h1, h2⟩
  have hmem : Event.capGetProc ∈
      (procFdMain ["elevated_proc_fd", "5"] (fun _ => true) 3 4 true true).events := by
    rw [procFdMain_eq ["elevated_proc_fd", "5"] "5" (fun _ => true) 3 4 true true rfl]
    apply List.mem_append_left
    apply List.mem_append_right
    unfold capElevationEvents
    apply List.mem_append_left
    simp
  cases l1 with
  | nil =>
    rw [heq, List.nil_append] at hmem
    exact Bool.noConfusion ((rfl :
      isCapElevation Event.capGetProc = true).symm.trans (h2 Event.capGetProc hmem))
  | cons e t =>
    have hhd : (procFdMain ["elevated_proc_fd", "5"] (fun _ => true) 3 4 true true).events.head?
        = some (Event.argRead 1) := by
      rw [procFdMain_eq ["elevated_proc_fd", "5"] "5" (fun _ => true) 3 4 true true rfl]
      rfl
    rw [heq, List.cons_append, List.head?_cons] at hhd
    have he : e = Event.argRead 1 := Option.some.inj hhd
    have hfalse := h1 e (List.mem_cons_self e t)
    rw [he] at hfalse
    exact Bool.noConfusion ((rfl : isArgRead (Event.argRead 1) = true).symm.trans hfalse)

/-- C6 amended: in the single-command variants (docker stats, netstat) no
runtime argument is ever read; in the fd-count variant every read of the
runtime argument happens before every capability-elevation call, and every
capability-elevation call happens before every pipe/fork/exec step. -/
theorem C6_amended_argument_read_precedes_elevation (argv : List String)
    (a1 : String) (ok : Nat → Bool) (readEnd writeEnd : Nat)
    (parentBranch execOk : Bool) (h : argv.get? 1 = some a1) :
    Precedes isArgRead isCapElevation
      ((procFdMain argv ok readEnd writeEnd parentBranch execOk).events) ∧
    Precedes isCapElevation isLaunch
      ((procFdMain argv ok readEnd writeEnd parentBranch execOk).events) ∧
    (∀ e ∈ (dockerMain ok execOk).events, isArgRead e = false) ∧
    (∀ e ∈ (netstatMain ok execOk).events, isArgRead e = false) := by
  have hreads : ∀ e ∈ (Event.argRead 1 ::
      (if strcmp a1 "-1" ≠ 0 then [Event.argRead 1] else [])),
      e = Event.argRead 1 := by
    intro e he
    rcases List.mem_cons.mp he with rfl | he2
    · rfl
    · split at he2
      · exact List.mem_singleton.mp he2
      · exact absurd he2 (List.not_mem_nil e)
  refine ⟨?_, ?_, ?_, ?_⟩
  · rw [procFdMain_eq argv a1 ok readEnd writeEnd parentBranch execOk h]
    refine ⟨Event.argRead 1 ::
        (if strcmp a1 "-1" ≠ 0 then [Event.argRead 1] else []),
      capElevationEvents procFdCaps ok ++
        pipeComposerEvents readEnd writeEnd (buildFdCmd a1).lsbin
          (buildFdCmd a1).ls_args parentBranch,
      List.append_assoc _ _ _, ?_, ?_⟩
    · intro e he
      rw [hreads e he]
      rfl
    · intro e he
      rcases List.mem_append.mp he with h1 | h1
      · exact capElevationEvents_not_argRead procFdCaps ok e h1
      · exact pipeComposerEvents_not_argRead readEnd writeEnd _ _ parentBranch e h1
  · rw [procFdMain_eq argv a1 ok readEnd writeEnd parentBranch execOk h]
    refine ⟨(Event.argRead 1 ::
        (if strcmp a1 "-1" ≠ 0 then [Event.argRead 1] else [])) ++
        capElevationEvents procFdCaps ok,
      pipeComposerEvents readEnd writeEnd (buildFdCmd a1).lsbin
        (buildFdCmd a1).ls_args parentBranch,
      rfl, ?_, ?_⟩
    · intro e he
      rcases List.mem_append.mp he with h1 | h1
      · rw [hreads e h1]
        rfl
      · exact capElevationEvents_not_launch procFdCaps ok e h1
    · intro e he
      exact pipeComposerEvents_not_capElevation readEnd writeEnd _ _ parentBranch e he
  · intro e he
    have he2 : e ∈ capElevationEvents dockerCaps ok ++
        [Event.execv "/usr/bin/docker" dockerParam] := he
    rcases List.mem_append.mp he2 with h1 | h1
    · exact capElevationEvents_not_argRead dockerCaps ok e h1
    · rw [List.mem_singleton.mp h1]
      rfl
  · intro e he
    have he2 : e ∈ capElevationEvents netstatCaps ok ++
        [Event.execv "/bin/netstat" netstatParam] := he
    rcases List.mem_append.mp he2 with h1 | h1
    · exact capElevationEvents_not_argRead netstatCaps ok e h1
    · rw [List.mem_singleton.mp h1]
      rfl

/-- Witness for the amended C6 at the concrete invocation
["elevated_proc_fd", "7"]. -/
theorem C6_amended_witness :
    Precedes isArgRead isCapElevation
      ((procFdMain ["elevated_proc_fd", "7"] (fun _ => true) 3 4 true true).events) ∧
    Precedes isCapElevation isLaunch
      ((procFdMain ["elevated_proc_fd", "7"] (fun _ => true) 3 4 true true).events) ∧
    (∀ e ∈ (dockerMain (fun _ => true) true).events, isArgRead e = false) ∧
    (∀ e ∈ (netstatMain (fun _ => true) true).events, isArgRead e = false) :=
  C6_amended_argument_read_precedes_elevation ["elevated_proc_fd", "7"] "7"
    (fun _ => true) 3 4 true true rfl

theorem procFdMain_no_usage_print (argv : List String) (a1 : String)
    (ok : Nat → Bool) (readEnd writeEnd : Nat) (parentBranch execOk : Bool)
    (h : argv.get? 1 = some a1) :
    Event.print usageMsg ∉
      (procFdMain argv ok readEnd writeEnd parentBranch execOk).events := by
  rw [procFdMain_eq argv a1 ok readEnd writeEnd parentBranch execOk h]
  intro hmem
  rcases List.mem_append.mp hmem with h1 | h1
  · rcases List.mem_append.mp h1 with h2 | h2
    · rcases List.mem_cons.mp h2 with h3 | h3
      · exact Event.noConfusion h3
      · split at h3
        · exact Event.noConfusion (List.mem_singleton.mp h3)
        · exact absurd h3 (List.not_mem_nil _)
    · rcases capElevationEvents_shape procFdCaps ok _ h2 with hsh | hsh
      · exact Bool.noConfusion hsh
      · exact absurd (Event.print.inj hsh) (by decide)
  · exact Bool.noConfusion
      (pipeComposerEvents_launch readEnd writeEnd _ _ parentBranch _ h1)

/-- C7 is wrong about the code: the fd-count proxy performs no validation
of its argument.  At the concrete first argument "abc", which is not a
decimal numeral, the proxy still builds the per-process path command for
/proc/abc/fd and reaches its exec, printing no usage message and
executing no early return. -/
theorem C7_counterexample :
    isDecimalNumeral "abc" = false ∧
    Event.execv "/bin/ls" [some "ls", some ("/proc/" ++ "abc" ++ "/fd"), none] ∈
      (procFdMain ["elevated_proc_fd", "abc"] (fun _ => true) 3 4 true true).events ∧
    (procFdMain ["elevated_proc_fd", "abc"] (fun _ => true) 3 4 true true).explicitReturn = none ∧
    Event.print usageMsg ∉
      (procFdMain ["elevated_proc_fd", "abc"] (fun _ => true) 3 4 true true).events := by
  refine ⟨by decide, ?_, ?_, ?_⟩
  · rw [procFdMain_eq ["elevated_proc_fd", "abc"] "abc" (fun _ => true) 3 4 true true rfl,
      buildFdCmd_of_ne "abc" (by decide)]
    apply List.mem_append_right
    simp [pipeComposerEvents]
  · rw [procFdMain_eq ["elevated_proc_fd", "abc"] "abc" (fun _ => true) 3 4 true true rfl]
  · exact procFdMain_no_usage_print ["elevated_proc_fd", "abc"] "abc"
      (fun _ => true) 3 4 true true rfl

/-- C7 amended: for every first argument P different from "-1" — whether
or not P is a syntactically valid decimal process identifier — the
fd-count proxy performs no validation: it builds the per-process path
command for /proc/P/fd, reaches its exec, and never prints the usage
message. -/
theorem C7_amended_no_argument_validation (argv : List String) (a1 : String)
    (ok : Nat → Bool) (readEnd writeEnd : Nat) (execOk : Bool)
    (h : argv.get? 1 = some a1) (hne : a1 ≠ "-1") :
    Event.execv "/bin/ls" [some "ls", some ("/proc/" ++ a1 ++ "/fd"), none] ∈
      (procFdMain argv ok readEnd writeEnd true execOk).events ∧
    Event.print usageMsg ∉
      (procFdMain argv ok readEnd writeEnd true execOk).events := by
  refine ⟨?_, procFdMain_no_usage_print argv a1 ok readEnd writeEnd true execOk h⟩
  rw [procFdMain_eq argv a1 ok readEnd writeEnd true execOk h,
    buildFdCmd_of_ne a1 hne]
  apply List.mem_append_right
  simp [pipeComposerEvents]

/-- Witness for the amended C7 at the concrete non-numeric argument "abc". -/
theorem C7_amended_witness :
    ((["elevated_proc_fd", "abc"] : List String).get? 1 = some "abc") ∧
    ("abc" : String) ≠ "-1" ∧
    (Event.execv "/bin/ls" [some "ls", some ("/proc/" ++ "abc" ++ "/fd"), none] ∈
      (procFdMain ["elevated_proc_fd", "abc"] (fun _ => true) 5 6 true false).events ∧
    Event.print usageMsg ∉
      (procFdMain ["elevated_proc_fd", "abc"] (fun _ => true) 5 6 true false).events) :=
  ⟨rfl, by decide,
   C7_amended_no_argument_validation ["elevated_proc_fd", "abc"] "abc"
     (fun _ => true) 5 6 false rfl (by decide)⟩

/-- C8 is wrong about the code: when execv fails and control returns, none
of the proxies has any error handling — main simply falls off its closing
brace, which in C99 yields exit status 0, not a distinguishable non-zero
status.  Shown on the docker-stats variant with a failing exec. -/
theorem C8_counterexample :
    exitStatus (dockerMain (fun _ => true) false) = some 0 ∧
    ¬ ∃ s, exitStatus (dockerMain (fun _ => true) false) = some s ∧ s ≠ 0 := by
  refine ⟨rfl, ?_⟩
  rintro ⟨s, hs, hne⟩
  have h0 : exitStatus (dockerMain (fun _ => true) false) = some 0 := rfl
  rw [h0] at hs
  exact hne (Option.some.inj hs).symm

/-- C8 amended: in every variant, when the exec call fails and control
returns to the proxy, the proxy terminates immediately — nothing further
runs — but with exit status zero (the implicit return of main), not a
non-zero status. -/
theorem C8_amended_exec_failure_exits_zero (ok : Nat → Bool)
    (argv : List String) (a1 : String) (readEnd writeEnd : Nat)
    (parentBranch : Bool) (h : argv.get? 1 = some a1) :
    exitStatus (dockerMain ok false) = some 0 ∧
    exitStatus (netstatMain ok false) = some 0 ∧
    exitStatus (procFdMain argv ok readEnd writeEnd parentBranch false) = some 0 := by
  refine ⟨rfl, rfl, ?_⟩
  rw [procFdMain_eq argv a1 ok readEnd writeEnd parentBranch false h]
  rfl

/-- Witness for the amended C8 at a concrete failing-exec run of each
variant. -/
theorem C8_amended_witness :
    ((["elevated_proc_fd", "8"] : List String).get? 1 = some "8") ∧
    (exitStatus (dockerMain (fun _ => true) false) = some 0 ∧
     exitStatus (netstatMain (fun _ => true) false) = some 0 ∧
     exitStatus (procFdMain ["elevated_proc_fd", "8"] (fun _ => true) 3 4 true false) = some 0) :=
  ⟨rfl, C8_amended_exec_failure_exits_zero (fun _ => true)
    ["elevated_proc_fd", "8"] "8" 3 4 true rfl⟩

/-- C9 is wrong about the code on one point: element 0 of the argument
vector is the program name, not the target binary path.  The docker-stats
variant execs the target "/usr/bin/docker" but its vector starts with
"docker". -/
theorem C9_counterexample :
    Event.execv "/usr/bin/docker" dockerParam ∈
      (dockerMain (fun _ => true) true).events ∧
    dockerParam.head? = some (some "docker") ∧
    dockerParam.head? ≠ some (some "/usr/bin/docker") := by
  refine ⟨?_, rfl, by decide⟩
  show Event.execv "/usr/bin/docker" dockerParam ∈
    capElevationEvents dockerCaps (fun _ => true) ++
      [Event.execv "/usr/bin/docker" dockerParam]
  apply List.mem_append_right
  exact List.mem_singleton.mpr rfl

/-- C9 amended: every argument vector consumed by image replacement is a
bounded NULL-terminated sequence, built once and passed unchanged to the
exec call; its element 0 names the target program — it is the final path
component (basename) of the target binary path, except in the lsof branch
of the fd-count variant where it is the full target path itself. -/
theorem C9_amended_null_terminated_argv0_names_program :
    (nullTerminated dockerParam ∧
      dockerParam.head? = some (some (basename "/usr/bin/docker")) ∧
      ∀ ok execOk, Event.execv "/usr/bin/docker" dockerParam ∈
        (dockerMain ok execOk).events) ∧
    (nullTerminated netstatParam ∧
      netstatParam.head? = some (some (basename "/bin/netstat")) ∧
      ∀ ok execOk, Event.execv "/bin/netstat" netstatParam ∈
        (netstatMain ok execOk).events) ∧
    (nullTerminated wc_args ∧
      wc_args.head? = some (some (basename "/usr/bin/wc"))) ∧
    (∀ a1 : String, nullTerminated (buildFdCmd a1).ls_args ∧
      (buildFdCmd a1).ls_args.length ≤ 64 ∧
      (a1 = "-1" →
        (buildFdCmd a1).lsbin = "/usr/bin/lsof" ∧
        (buildFdCmd a1).ls_args.head? = some (some (buildFdCmd a1).lsbin)) ∧
      (a1 ≠ "-1" →
        (buildFdCmd a1).lsbin = "/bin/ls" ∧
        (buildFdCmd a1).ls_args.head? = some (some (basename (buildFdCmd a1).lsbin)))) ∧
    (∀ (a1 : String) (ok : Nat → Bool) (readEnd writeEnd : Nat) (execOk : Bool),
      Event.execv (buildFdCmd a1).lsbin (buildFdCmd a1).ls_args ∈
        (procFdMain ["elevated_proc_fd", a1] ok readEnd writeEnd true execOk).events) := by
  refine ⟨⟨⟨by decide, rfl, by decide⟩, by decide, ?_⟩,
    ⟨⟨by decide, rfl, by decide⟩, by decide, ?_⟩,
    ⟨⟨by decide, rfl, by decide⟩, by decide⟩, ?_, ?_⟩
  · intro ok execOk
    show Event.execv "/usr/bin/docker" dockerParam ∈
      capElevationEvents dockerCaps ok ++ [Event.execv "/usr/bin/docker" dockerParam]
    apply List.mem_append_right
    exact List.mem_singleton.mpr rfl
  · intro ok execOk
    show Event.execv "/bin/netstat" netstatParam ∈
      capElevationEvents netstatCaps ok ++ [Event.execv "/bin/netstat" netstatParam]
    apply List.mem_append_right
    exact List.mem_singleton.mpr rfl
  · intro a1
    by_cases hs : a1 = "-1"
    · subst hs
      rw [buildFdCmd_sentinel]
      refine ⟨⟨by simp, rfl, by decide⟩, by simp, ?_, ?_⟩
      · intro _
        exact ⟨rfl, rfl⟩
      · intro hne
        exact absurd rfl hne
    · rw [buildFdCmd_of_ne a1 hs]
      refine ⟨⟨by simp, rfl, ?_⟩, by simp, ?_, ?_⟩
      · intro s hs2
        simp at hs2
        rcases hs2 with rfl | rfl <;> simp
      · intro heq
        exact absurd heq hs
      · intro _
        refine ⟨rfl, ?_⟩
        show (some (some "ls") : Option (Option String)) =
          some (some (basename "/bin/ls"))
        rw [show basename "/bin/ls" = "ls" from by decide]
  · intro a1 ok readEnd writeEnd execOk
    rw [procFdMain_eq ["elevated_proc_fd", a1] a1 ok readEnd writeEnd true execOk rfl]
    apply List.mem_append_right
    unfold pipeComposerEvents
    simp

/-- Witness for C4 at concrete pipe descriptors 3 and 4 and a concrete
listing command. -/
theorem C4_witness :
    pipeComposerEvents 3 4 "/bin/ls" [some "ls", some "/proc/9/fd", none] true =
      [Event.pipeCreate 3 4, Event.forkCall,
       Event.dup2 4 1, Event.closeFd 4, Event.closeFd 3,
       Event.execv "/bin/ls" [some "ls", some "/proc/9/fd", none]] ∧
    pipeComposerEvents 3 4 "/bin/ls" [some "ls", some "/proc/9/fd", none] false =
      [Event.pipeCreate 3 4, Event.forkCall,
       Event.dup2 3 0, Event.closeFd 3, Event.closeFd 4,
       Event.execv "/usr/bin/wc" [some "wc", some "-l", none]] ∧
    ∀ pid b, Event.waitCall pid ∉
      pipeComposerEvents 3 4 "/bin/ls" [some "ls", some "/proc/9/fd", none] b :=
  C4_pipe_wiring 3 4 "/bin/ls" [some "ls", some "/proc/9/fd", none]

/-- Witness for C10 at the concrete five-byte argument "12345". -/
theorem C10_witness :
    procFdBytesWritten "12345" ≤ PROC_FD_PARAM_CAPACITY ↔
      ("12345" : String).length ≤ 22 :=
  C10_procFDParam_fits_iff_arg_at_most_22 "12345"

/-- Witness for the amended C9: at the sentinel argument the built vector
starts with the full lsof target path, and at a numeric argument it starts
with the basename of the /bin/ls target. -/
theorem C9_amended_witness :
    (("-1" : String) = "-1" ∧
     (buildFdCmd "-1").lsbin = "/usr/bin/lsof" ∧
     (buildFdCmd "-1").ls_args.head? = some (some (buildFdCmd "-1").lsbin)) ∧
    (("7" : String) ≠ "-1" ∧
     (buildFdCmd "7").lsbin = "/bin/ls" ∧
     (buildFdCmd "7").ls_args.head? = some (some (basename (buildFdCmd "7").lsbin))) :=
  ⟨⟨rfl, (C9_amended_null_terminated_argv0_names_program.2.2.2.1 "-1").2.2.1 rfl⟩,
   ⟨by decide,
    (C9_amended_null_terminated_argv0_names_program.2.2.2.1 "7").2.2.2 (by decide)⟩⟩
